import Mathlib

/-!
Shallow embedding of the motorcycle CRUD service in `src/app.py`.

The program is a single-table CRUD pipeline: pydantic wire schemas
(`MotorcycleCreate`, `MotorcycleUpdate`, `MotorcycleResponse`), a SQLAlchemy
row class (`MotorcycleModel`), a repository layer
(`MotorcycleRepository`, a thin wrapper over the advanced-alchemy
`SQLAlchemySyncRepository`), a service layer (`MotorcycleService`) and HTTP
handlers (`MotorcycleController`).

Modelling decisions:
* The database table is a list of rows plus a sequence counter (`DB`).
  The engine's `NOT NULL` column enforcement is external to the repository
  code and is not modelled; rows carry `Option` values exactly as the ORM
  objects do in Python, where every unset attribute is `None`.
* Python floats are stored and copied but never computed with, so
  `odometer_value` is carried as an exact `Rat`.
* Exceptions are modelled by `Except` results.  Mutating operations return
  the (possibly updated) database next to the result, because the repository
  commits (`auto_commit=True`) before the service builds the response, so a
  later serialization failure does not roll the write back.
* `advanced_alchemy` semantics used by the repository:
  `get_one(vin=v)` returns the first matching row or raises `NotFoundError`;
  `add` surfaces a unique-constraint violation on `vin` as a conflict;
  `update(data)` replaces the row whose primary key equals `data.id`;
  `delete(item_id=i)` removes the row with primary key `i`;
  `list(order_by=(field, is_desc))` sorts ascending when the boolean
  `is_desc` is `False` and descending when it is `True`.
-/

namespace MotorcycleApp

/-- A row of the `vehicle.motorcycle` table as the ORM object holds it:
every attribute is optional because an unset Python attribute is `None`.
`id` is the surrogate primary key assigned by the storage layer. -/
structure MotorcycleModel where
  id : Option Nat
  vin : Option String
  motorcycle_type : Option String
  odometer_value : Option Rat
  odometer_unit : Option String
  is_electric : Option Bool
  number_of_seats : Option Int
deriving DecidableEq, Repr

/-- The motorcycle table: stored rows plus the primary-key sequence. -/
structure DB where
  rows : List MotorcycleModel
  next_id : Nat
deriving DecidableEq, Repr

/-- Well-formedness the storage engine guarantees for the table: primary keys
are pairwise distinct and the unique constraint on `vin` holds. -/
def DB.wf (db : DB) : Prop :=
  db.rows.Pairwise (fun a b => a.id ≠ b.id ∧ a.vin ≠ b.vin)

instance (db : DB) : Decidable db.wf := by
  unfold DB.wf
  infer_instance

/-- Error taxonomy of the pipeline: `notFound` (HTTP 404), `conflict`
(duplicate `vin`, HTTP 409), `validation` (the litestar
`ValidationException` raised by the service gate, HTTP 400), and
`serialization` (a pydantic error raised by `model_validate` when a row
cannot be projected to a `MotorcycleResponse`). -/
inductive AppError where
  | notFound
  | conflict
  | validation
  | serialization
deriving DecidableEq, Repr

instance {ε α : Type} [DecidableEq ε] [DecidableEq α] :
    DecidableEq (Except ε α) := fun a b =>
  match a, b with
  | .error e, .error f =>
      if h : e = f then .isTrue (h ▸ rfl)
      else .isFalse (fun hh => h (Except.error.inj hh))
  | .ok x, .ok y =>
      if h : x = y then .isTrue (h ▸ rfl)
      else .isFalse (fun hh => h (Except.ok.inj hh))
  | .error _, .ok _ => .isFalse (fun hh => Except.noConfusion hh)
  | .ok _, .error _ => .isFalse (fun hh => Except.noConfusion hh)

/-- Wire schema for `POST`: every field is required. -/
structure MotorcycleCreate where
  vin : String
  motorcycle_type : String
  odometer_value : Rat
  odometer_unit : String
  is_electric : Bool
  number_of_seats : Int
deriving DecidableEq, Repr

/-- Wire schema for `PUT`/`PATCH`: every field is optional and defaults to
`None`.  An omitted field and an explicit `null` both reach the ORM
constructor as `None`, so a single `Option` per field is faithful. -/
structure MotorcycleUpdate where
  vin : Option String := none
  motorcycle_type : Option String := none
  odometer_value : Option Rat := none
  odometer_unit : Option String := none
  is_electric : Option Bool := none
  number_of_seats : Option Int := none
deriving DecidableEq, Repr

/-- Wire schema of responses: all fields required, `id` included. -/
structure MotorcycleResponse where
  id : Nat
  vin : String
  motorcycle_type : String
  odometer_value : Rat
  odometer_unit : String
  is_electric : Bool
  number_of_seats : Int
deriving DecidableEq, Repr

/-- `MotorcycleResponse.model_validate(db_obj)`: pydantic projects the row to
the response schema and raises when a required field is `None`. -/
def MotorcycleResponse.model_validate (m : MotorcycleModel) :
    Except AppError MotorcycleResponse :=
  match m.id, m.vin, m.motorcycle_type, m.odometer_value, m.odometer_unit,
      m.is_electric, m.number_of_seats with
  | some i, some v, some t, some ov, some ou, some e, some s =>
      .ok ⟨i, v, t, ov, ou, e, s⟩
  | _, _, _, _, _, _, _ => .error .serialization

/-- `MotorcycleModel(**data.model_dump())` for a create payload. -/
def MotorcycleCreate.toModel (c : MotorcycleCreate) : MotorcycleModel :=
  { id := none
    vin := some c.vin
    motorcycle_type := some c.motorcycle_type
    odometer_value := some c.odometer_value
    odometer_unit := some c.odometer_unit
    is_electric := some c.is_electric
    number_of_seats := some c.number_of_seats }

/-- `MotorcycleModel(**data.model_dump(exclude_unset=True))` for an update
payload: supplied fields are set, omitted ones stay `None`. -/
def MotorcycleUpdate.toModel (u : MotorcycleUpdate) : MotorcycleModel :=
  { id := none
    vin := u.vin
    motorcycle_type := u.motorcycle_type
    odometer_value := u.odometer_value
    odometer_unit := u.odometer_unit
    is_electric := u.is_electric
    number_of_seats := u.number_of_seats }

/-- The argument type of `MotorcycleService.update_motorcycle`, declared in
the source as `MotorcycleCreate | MotorcycleUpdate`. -/
inductive UpdateInput where
  | create (c : MotorcycleCreate)
  | update (u : MotorcycleUpdate)
deriving DecidableEq, Repr

/-- `data.vin` on the union type. -/
def UpdateInput.vin : UpdateInput → Option String
  | .create c => some c.vin
  | .update u => u.vin

/-- `MotorcycleModel(**data_dict)` where `data_dict` is
`data.model_dump(exclude_unset=True)` for a `MotorcycleUpdate` and
`data.model_dump()` for a `MotorcycleCreate` (the `isinstance` branch in
`MotorcycleService.update_motorcycle`). -/
def UpdateInput.toModel : UpdateInput → MotorcycleModel
  | .create c => c.toModel
  | .update u => u.toModel

/-- `self.get_one(vin=...)`: first row matching the vin, else `NotFoundError`.
With the unique constraint at most one row can match. -/
def MotorcycleRepository.get_one (vin : Option String) (db : DB) :
    Except AppError MotorcycleModel :=
  match db.rows.find? (fun r => r.vin == vin) with
  | some r => .ok r
  | none => .error .notFound

/-- Replace the row whose primary key is `i` (the `UPDATE ... WHERE id = i`
that `self.update(data=...)` issues). -/
def replaceById (rows : List MotorcycleModel) (i : Option Nat)
    (data : MotorcycleModel) : List MotorcycleModel :=
  rows.map (fun r => if r.id == i then data else r)

/-- Lexicographic code-point comparison of character lists, the order the
database collates `vin` strings by. -/
def strLeAux : List Char → List Char → Bool
  | [], _ => true
  | _ :: _, [] => false
  | a :: as, b :: bs =>
      if a.toNat < b.toNat then true
      else if b.toNat < a.toNat then false
      else strLeAux as bs

/-- String comparison on the underlying character lists. -/
def strLe (a b : String) : Bool :=
  strLeAux a.data b.data

/-- Row comparison on the `vin` column; SQL `NULL` ordering is irrelevant
because every stored row has a vin. -/
def vinLe (a b : MotorcycleModel) : Bool :=
  match a.vin, b.vin with
  | none, _ => true
  | some _, none => false
  | some x, some y => strLe x y

/-- Insert a row into a sorted list of rows. -/
def insertRow (le : MotorcycleModel → MotorcycleModel → Bool)
    (x : MotorcycleModel) : List MotorcycleModel → List MotorcycleModel
  | [] => [x]
  | y :: ys => if le x y then x :: y :: ys else y :: insertRow le x ys

/-- Insertion sort of rows. -/
def sortRows (le : MotorcycleModel → MotorcycleModel → Bool) :
    List MotorcycleModel → List MotorcycleModel
  | [] => []
  | x :: xs => insertRow le x (sortRows le xs)

/-- `self.list(order_by=(MotorcycleModel.vin, is_desc))`: ascending by vin
when `is_desc` is false, descending when true. -/
def MotorcycleRepository.listOrderByVin (is_desc : Bool) (db : DB) :
    List MotorcycleModel :=
  sortRows (fun a b => if is_desc then vinLe b a else vinLe a b) db.rows

/-- `MotorcycleRepository.list_motorcycles`: the source passes
`(MotorcycleModel.vin, False)` as the ordering pair. -/
def MotorcycleRepository.list_motorcycles (db : DB) : List MotorcycleModel :=
  MotorcycleRepository.listOrderByVin false db

/-- `MotorcycleRepository.get_motorcycle_by_vin`. -/
def MotorcycleRepository.get_motorcycle_by_vin (vin : String) (db : DB) :
    Except AppError MotorcycleModel :=
  MotorcycleRepository.get_one (some vin) db

/-- `MotorcycleRepository.create_motorcycle`: `self.add` with
`auto_refresh=True, auto_commit=True`.  The unique constraint on `vin`
surfaces a duplicate as a conflict; otherwise the sequence assigns the
primary key and the row is inserted. -/
def MotorcycleRepository.create_motorcycle (data : MotorcycleModel) (db : DB) :
    Except AppError (MotorcycleModel × DB) :=
  if db.rows.any (fun r => r.vin == data.vin) then
    .error .conflict
  else
    let row := { data with id := some db.next_id }
    .ok (row, { rows := db.rows ++ [row], next_id := db.next_id + 1 })

/-- `MotorcycleRepository.update_motorcycle`: resolve the existing row by
vin, copy its primary key onto the incoming record, then full-replace. -/
def MotorcycleRepository.update_motorcycle (data : MotorcycleModel) (db : DB) :
    Except AppError (MotorcycleModel × DB) :=
  match MotorcycleRepository.get_one data.vin db with
  | .error e => .error e
  | .ok existing_db_obj =>
      let data' := { data with id := existing_db_obj.id }
      .ok (data', { db with rows := replaceById db.rows existing_db_obj.id data' })

/-- `MotorcycleRepository.delete_motorcycle_by_vin`: resolve by vin, then
`self.delete(item_id=db_obj.id)`. -/
def MotorcycleRepository.delete_motorcycle_by_vin (vin : String) (db : DB) :
    Except AppError DB :=
  match MotorcycleRepository.get_one (some vin) db with
  | .error e => .error e
  | .ok db_obj =>
      .ok { db with rows := db.rows.filter (fun r => !(r.id == db_obj.id)) }

/-- `MotorcycleService.list_motorcycles`: list then convert each row; a
pydantic failure on any row aborts the whole call. -/
def MotorcycleService.list_motorcycles (db : DB) :
    Except AppError (List MotorcycleResponse) :=
  (MotorcycleRepository.list_motorcycles db).mapM MotorcycleResponse.model_validate

/-- `MotorcycleService.get_motorcycle_by_vin`. -/
def MotorcycleService.get_motorcycle_by_vin (vin : String) (db : DB) :
    Except AppError MotorcycleResponse :=
  match MotorcycleRepository.get_motorcycle_by_vin vin db with
  | .error e => .error e
  | .ok db_obj => MotorcycleResponse.model_validate db_obj

/-- `MotorcycleService.create_motorcycle`. -/
def MotorcycleService.create_motorcycle (data : MotorcycleCreate) (db : DB) :
    Except AppError MotorcycleResponse × DB :=
  match MotorcycleRepository.create_motorcycle data.toModel db with
  | .error e => (.error e, db)
  | .ok (db_obj, db') => (MotorcycleResponse.model_validate db_obj, db')

/-- `MotorcycleService.update_motorcycle`: the validation gate
`if vin != data.vin: raise ValidationException(...)` runs before any
repository call; then the row built from the payload is handed to the
repository's full-replace update. -/
def MotorcycleService.update_motorcycle (vin : String) (data : UpdateInput)
    (db : DB) : Except AppError MotorcycleResponse × DB :=
  if some vin ≠ data.vin then
    (.error .validation, db)
  else
    match MotorcycleRepository.update_motorcycle data.toModel db with
    | .error e => (.error e, db)
    | .ok (db_obj, db') => (MotorcycleResponse.model_validate db_obj, db')

/-- `MotorcycleService.delete_motorcycle_by_vin`. -/
def MotorcycleService.delete_motorcycle_by_vin (vin : String) (db : DB) :
    Except AppError Unit × DB :=
  match MotorcycleRepository.delete_motorcycle_by_vin vin db with
  | .error e => (.error e, db)
  | .ok db' => (.ok (), db')

/-- `GET /motorcycles`. -/
def MotorcycleController.list_motorcycles (db : DB) :
    Except AppError (List MotorcycleResponse) :=
  MotorcycleService.list_motorcycles db

/-- `GET /motorcycles/{vin}`. -/
def MotorcycleController.get_motorcycle_by_vin (vin : String) (db : DB) :
    Except AppError MotorcycleResponse :=
  MotorcycleService.get_motorcycle_by_vin vin db

/-- `POST /motorcycles`. -/
def MotorcycleController.create_motorcycle (data : MotorcycleCreate) (db : DB) :
    Except AppError MotorcycleResponse × DB :=
  MotorcycleService.create_motorcycle data db

/-- `PUT /motorcycles/{vin}`: the handler's body type is
`MotorcycleUpdate`, so the service receives the update branch of the union. -/
def MotorcycleController.update_motorcycle (vin : String)
    (data : MotorcycleUpdate) (db : DB) :
    Except AppError MotorcycleResponse × DB :=
  MotorcycleService.update_motorcycle vin (.update data) db

/-- `PATCH /motorcycles/{vin}`. -/
def MotorcycleController.partially_update_motorcycle (vin : String)
    (data : MotorcycleUpdate) (db : DB) :
    Except AppError MotorcycleResponse × DB :=
  MotorcycleService.update_motorcycle vin (.update data) db

/-- `DELETE /motorcycles/{vin}`. -/
def MotorcycleController.delete_motorcycle_by_vin (vin : String) (db : DB) :
    Except AppError Unit × DB :=
  MotorcycleService.delete_motorcycle_by_vin vin db

/-- A fully populated stored row, used as a concrete fixture. -/
def sampleRow (i : Nat) (v : String) : MotorcycleModel :=
  { id := some i
    vin := some v
    motorcycle_type := some "cruiser"
    odometer_value := some 1
    odometer_unit := some "km"
    is_electric := some false
    number_of_seats := some 2 }

/-- The validation gate: whenever the payload vin differs from the path vin,
the service fails with the validation error and returns the store untouched,
before any repository call. -/
theorem gate_fires (vin : String) (data : UpdateInput) (db : DB)
    (h : data.vin ≠ some vin) :
    MotorcycleService.update_motorcycle vin data db = (.error .validation, db) := by
  have hc : some vin ≠ data.vin := fun hc => h hc.symm
  unfold MotorcycleService.update_motorcycle
  rw [if_pos hc]

/-- A search over rows none of which carry the vin finds nothing. -/
theorem find?_vin_eq_none {vin : String} {rows : List MotorcycleModel}
    (h : ∀ r ∈ rows, r.vin ≠ some vin) :
    rows.find? (fun x => x.vin == some vin) = none :=
  List.find?_eq_none.mpr (fun x hx => by simp [h x hx])

/-- Under the unique constraint on `vin`, two stored rows with the same vin
are the same row. -/
theorem vin_unique_of_wf {rows : List MotorcycleModel}
    (hp : rows.Pairwise fun a b => a.id ≠ b.id ∧ a.vin ≠ b.vin)
    {x y : MotorcycleModel} (hx : x ∈ rows) (hy : y ∈ rows)
    (hxy : x.vin = y.vin) : x = y := by
  have hv : rows.Pairwise fun a b => a.vin ≠ b.vin := hp.imp (fun h => h.2)
  have hnd : (rows.map fun m => m.vin).Nodup := List.pairwise_map.mpr hv
  exact List.inj_on_of_nodup_map hnd hx hy hxy

/-- After deleting the row found for a vin, no surviving row carries it. -/
theorem no_vin_in_filter (vin : String) (rows : List MotorcycleModel)
    (r : MotorcycleModel)
    (hp : rows.Pairwise fun a b => a.id ≠ b.id ∧ a.vin ≠ b.vin)
    (hf : rows.find? (fun x => x.vin == some vin) = some r) :
    ∀ x ∈ rows.filter (fun x => !(x.id == r.id)), x.vin ≠ some vin := by
  intro x hx hxv
  have hxmem : x ∈ rows := (List.mem_filter.mp hx).1
  have hxid : (!(x.id == r.id)) = true := (List.mem_filter.mp hx).2
  have hr : r ∈ rows := List.mem_of_find?_eq_some hf
  have hrvin : r.vin = some vin := by simpa using List.find?_some hf
  have hxr : x = r := vin_unique_of_wf hp hxmem hr (by rw [hxv, hrvin])
  rw [hxr] at hxid
  simp at hxid

/-- Search in a concatenation whose first part has no match continues in the
second part. -/
theorem find?_append_of_none {α : Type} {p : α → Bool} {l₁ l₂ : List α}
    (h : l₁.find? p = none) : (l₁ ++ l₂).find? p = l₂.find? p := by
  induction l₁ with
  | nil => rfl
  | cons y ys ih =>
      rw [List.find?_cons] at h
      cases hy : p y with
      | true => rw [hy] at h; exact absurd h (by simp)
      | false =>
          rw [hy] at h
          rw [List.cons_append, List.find?_cons, hy]
          exact ih h

/-- C1: for every path VIN, every update payload (either branch of the
`MotorcycleCreate | MotorcycleUpdate` union) and every store, if the payload
vin differs from the path VIN, `update_motorcycle` fails with the validation
error and returns the store unchanged — for every store, so in particular
when no record with the path VIN exists, and no repository lookup decides
the outcome. -/
theorem update_validation_gate_precedes_storage (vin : String)
    (data : UpdateInput) (db : DB) (h : data.vin ≠ some vin) :
    MotorcycleService.update_motorcycle vin data db = (.error .validation, db) :=
  gate_fires vin data db h

/-- Witness for C1 at the path VIN "VIN123" and a payload vin "OTHER". -/
theorem update_validation_gate_precedes_storage_witness :
    MotorcycleService.update_motorcycle "VIN123"
        (.update { vin := some "OTHER" }) (DB.mk [sampleRow 1 "VIN123"] 2) =
      (.error .validation, DB.mk [sampleRow 1 "VIN123"] 2) :=
  update_validation_gate_precedes_storage "VIN123"
    (.update { vin := some "OTHER" }) (DB.mk [sampleRow 1 "VIN123"] 2)
    (by decide)

/-- C10: a payload that omits the vin field parses with `vin = None`, which
never equals the path vin, so `update_motorcycle` always fails with the
validation error and leaves the store untouched. -/
theorem update_omitted_vin_always_rejected (vin : String)
    (u : MotorcycleUpdate) (db : DB) (h : u.vin = none) :
    MotorcycleService.update_motorcycle vin (.update u) db =
      (.error .validation, db) :=
  gate_fires vin (.update u) db (by simp [UpdateInput.vin, h])

/-- Witness for C10: a PATCH body supplying only `number_of_seats` is
rejected even though its other content matches the stored row. -/
theorem update_omitted_vin_always_rejected_witness :
    MotorcycleService.update_motorcycle "VIN123"
        (.update { number_of_seats := some 1 }) (DB.mk [sampleRow 1 "VIN123"] 2) =
      (.error .validation, DB.mk [sampleRow 1 "VIN123"] 2) :=
  update_omitted_vin_always_rejected "VIN123" { number_of_seats := some 1 }
    (DB.mk [sampleRow 1 "VIN123"] 2) (by decide)

/-- C5: creating a motorcycle whose vin is already stored fails with the
conflict error (HTTP 409) and returns the store unchanged. -/
theorem create_conflict_on_duplicate_vin (c : MotorcycleCreate) (db : DB)
    (r : MotorcycleModel) (hr : r ∈ db.rows) (hvin : r.vin = some c.vin) :
    MotorcycleService.create_motorcycle c db = (.error .conflict, db) := by
  have hany : db.rows.any (fun x => x.vin == c.toModel.vin) = true := by
    refine List.any_eq_true.mpr ⟨r, hr, ?_⟩
    simp [MotorcycleCreate.toModel, hvin]
  unfold MotorcycleService.create_motorcycle MotorcycleRepository.create_motorcycle
  rw [if_pos hany]

/-- Witness for C5 at a store already holding vin "A". -/
theorem create_conflict_on_duplicate_vin_witness :
    MotorcycleService.create_motorcycle
        (MotorcycleCreate.mk "A" "touring" 7 "mi" true 1) (DB.mk [sampleRow 1 "A"] 2) =
      (.error .conflict, DB.mk [sampleRow 1 "A"] 2) :=
  create_conflict_on_duplicate_vin (MotorcycleCreate.mk "A" "touring" 7 "mi" true 1)
    (DB.mk [sampleRow 1 "A"] 2) (sampleRow 1 "A") (by decide) (by decide)

/-- C8: when a row with the incoming record's vin exists, the repository
update resolves it, copies its surrogate id onto the incoming record, and
replaces exactly that row; the id stored after the update equals the id
stored before it. -/
theorem update_preserves_surrogate_id (data : MotorcycleModel) (db : DB)
    (r : MotorcycleModel)
    (hfind : db.rows.find? (fun x => x.vin == data.vin) = some r) :
    MotorcycleRepository.update_motorcycle data db =
      .ok ({ data with id := r.id },
        { db with rows := replaceById db.rows r.id { data with id := r.id } }) := by
  unfold MotorcycleRepository.update_motorcycle MotorcycleRepository.get_one
  rw [hfind]

/-- Witness for C8: an incoming record without an id inherits the stored
row's id 1. -/
theorem update_preserves_surrogate_id_witness :
    MotorcycleRepository.update_motorcycle { sampleRow 9 "A" with id := none }
        (DB.mk [sampleRow 1 "A"] 2) =
      .ok ({ { sampleRow 9 "A" with id := none } with id := (sampleRow 1 "A").id },
        { DB.mk [sampleRow 1 "A"] 2 with
            rows := replaceById [sampleRow 1 "A"] (sampleRow 1 "A").id
              { { sampleRow 9 "A" with id := none } with id := (sampleRow 1 "A").id } }) :=
  update_preserves_surrogate_id { sampleRow 9 "A" with id := none }
    (DB.mk [sampleRow 1 "A"] 2) (sampleRow 1 "A") (by decide)

/-- C9: the PUT handler and the PATCH handler take the same body type and
make the identical service call, so they agree on every input. -/
theorem put_patch_equivalent (vin : String) (data : MotorcycleUpdate) (db : DB) :
    MotorcycleController.update_motorcycle vin data db =
      MotorcycleController.partially_update_motorcycle vin data db := rfl

/-- C2: a partial update whose vin matches the path vin of an existing row
performs a full replace built from the supplied fields plus the resolved
surrogate id alone: fields omitted from the payload are `None` in the
persisted row, whatever the existing row held. -/
theorem patch_clears_omitted_fields (vin : String) (u : MotorcycleUpdate)
    (db : DB) (r : MotorcycleModel)
    (hvin : u.vin = some vin)
    (hfind : db.rows.find? (fun x => x.vin == some vin) = some r) :
    MotorcycleService.update_motorcycle vin (.update u) db =
      (MotorcycleResponse.model_validate { u.toModel with id := r.id },
        { db with rows := replaceById db.rows r.id { u.toModel with id := r.id } }) := by
  have hcond : ¬ (some vin ≠ (UpdateInput.update u).vin) := by
    simp [UpdateInput.vin, hvin]
  have htm : (UpdateInput.update u).toModel.vin = some vin := by
    simp [UpdateInput.toModel, MotorcycleUpdate.toModel, hvin]
  unfold MotorcycleService.update_motorcycle
  rw [if_neg hcond]
  unfold MotorcycleRepository.update_motorcycle MotorcycleRepository.get_one
  rw [htm, hfind]
  simp [UpdateInput.toModel, MotorcycleUpdate.toModel, hvin]

/-- Witness for C2: a PATCH supplying only the vin and `number_of_seats`
persists a row whose other fields are cleared, not the stored ones. -/
theorem patch_clears_omitted_fields_witness :
    MotorcycleService.update_motorcycle "B"
        (.update { vin := some "B", number_of_seats := some 1 })
        (DB.mk [sampleRow 1 "B"] 2) =
      (MotorcycleResponse.model_validate
          { ({ vin := some "B", number_of_seats := some 1 } : MotorcycleUpdate).toModel with
              id := (sampleRow 1 "B").id },
        { DB.mk [sampleRow 1 "B"] 2 with
            rows := replaceById [sampleRow 1 "B"] (sampleRow 1 "B").id
              { ({ vin := some "B", number_of_seats := some 1 } : MotorcycleUpdate).toModel with
                  id := (sampleRow 1 "B").id } }) :=
  patch_clears_omitted_fields "B" { vin := some "B", number_of_seats := some 1 }
    (DB.mk [sampleRow 1 "B"] 2) (sampleRow 1 "B") (by decide) (by decide)

/-- C3: listing a store holding vins "B" and "A" returns ascending vin
order, ["A", "B"], not the descending order the claim and the method's own
docstring state; the descending flag of the ordering pair would have to be
`True` to produce the documented order. -/
theorem list_motorcycles_sorts_ascending :
    (MotorcycleRepository.list_motorcycles
        (DB.mk [sampleRow 1 "B", sampleRow 2 "A"] 3)).map (fun r => r.vin) =
      [some "A", some "B"] ∧
    (MotorcycleRepository.list_motorcycles
        (DB.mk [sampleRow 1 "B", sampleRow 2 "A"] 3)).map (fun r => r.vin) ≠
      [some "B", some "A"] ∧
    (MotorcycleRepository.listOrderByVin true
        (DB.mk [sampleRow 1 "B", sampleRow 2 "A"] 3)).map (fun r => r.vin) =
      [some "B", some "A"] :=
  ⟨by decide, by decide, by decide⟩

/-- A PUT body that omits only `motorcycle_type`. -/
def putPartialBody : MotorcycleUpdate :=
  { vin := some "V1"
    odometer_value := some 1
    odometer_unit := some "km"
    is_electric := some false
    number_of_seats := some 2 }

/-- C4: the PUT handler binds its body as `MotorcycleUpdate`, so a PUT body
omitting a field is not rejected: the validation gate passes and the store
is mutated by a partial replace that clears the omitted field. -/
theorem put_accepts_partial_body :
    (MotorcycleController.update_motorcycle "V1" putPartialBody
        (DB.mk [sampleRow 1 "V1"] 2)).1 ≠ .error .validation ∧
    (MotorcycleController.update_motorcycle "V1" putPartialBody
        (DB.mk [sampleRow 1 "V1"] 2)).2.rows =
      [{ id := some 1, vin := some "V1", motorcycle_type := none,
         odometer_value := some 1, odometer_unit := some "km",
         is_electric := some false, number_of_seats := some 2 }] :=
  ⟨by decide, by decide⟩

/-- C6: reads, matched-vin updates and deletes of an absent vin all fail
with the not-found error and leave the store unchanged; and repeating a
delete that succeeded on a well-formed store fails with the not-found
error rather than crashing. -/
theorem absent_vin_not_found_and_delete_idempotent (vin : String)
    (u : MotorcycleUpdate) (db dbA dbA' : DB) (res : Except AppError Unit)
    (habs : ∀ r ∈ db.rows, r.vin ≠ some vin)
    (hu : u.vin = some vin)
    (hwfA : dbA.wf)
    (hdel : MotorcycleService.delete_motorcycle_by_vin vin dbA = (res, dbA'))
    (hok : res = .ok ()) :
    MotorcycleService.get_motorcycle_by_vin vin db = .error .notFound ∧
    MotorcycleService.update_motorcycle vin (.update u) db = (.error .notFound, db) ∧
    MotorcycleService.delete_motorcycle_by_vin vin db = (.error .notFound, db) ∧
    MotorcycleService.delete_motorcycle_by_vin vin dbA' = (.error .notFound, dbA') := by
  have hfind : db.rows.find? (fun x => x.vin == some vin) = none := find?_vin_eq_none habs
  refine ⟨?_, ?_, ?_, ?_⟩
  · unfold MotorcycleService.get_motorcycle_by_vin MotorcycleRepository.get_motorcycle_by_vin MotorcycleRepository.get_one
    rw [hfind]
  · have hcond : ¬ (some vin ≠ (UpdateInput.update u).vin) := by simp [UpdateInput.vin, hu]
    have htm : (UpdateInput.update u).toModel.vin = some vin := by
      simp [UpdateInput.toModel, MotorcycleUpdate.toModel, hu]
    unfold MotorcycleService.update_motorcycle
    rw [if_neg hcond]
    unfold MotorcycleRepository.update_motorcycle MotorcycleRepository.get_one
    rw [htm, hfind]
  · unfold MotorcycleService.delete_motorcycle_by_vin MotorcycleRepository.delete_motorcycle_by_vin MotorcycleRepository.get_one
    rw [hfind]
  · subst hok
    unfold MotorcycleService.delete_motorcycle_by_vin MotorcycleRepository.delete_motorcycle_by_vin MotorcycleRepository.get_one at hdel
    cases hfA : dbA.rows.find? (fun x => x.vin == some vin) with
    | none =>
        rw [hfA] at hdel
        have hcontra : (Except.error AppError.notFound : Except AppError Unit) = .ok () :=
          congrArg Prod.fst hdel
        exact absurd hcontra (fun h => Except.noConfusion h)
    | some r =>
        rw [hfA] at hdel
        have hdbA' : dbA' = { dbA with rows := dbA.rows.filter (fun x => !(x.id == r.id)) } :=
          (congrArg Prod.snd hdel).symm
        have hnone : dbA'.rows.find? (fun x => x.vin == some vin) = none := by
          rw [hdbA']
          exact find?_vin_eq_none (no_vin_in_filter vin dbA.rows r hwfA hfA)
        unfold MotorcycleService.delete_motorcycle_by_vin MotorcycleRepository.delete_motorcycle_by_vin MotorcycleRepository.get_one
        rw [hnone]

/-- Witness for C6 at vin "Z": the empty store for the not-found cases, and
a one-row store for the delete-twice case. -/
theorem absent_vin_not_found_and_delete_idempotent_witness :
    MotorcycleService.get_motorcycle_by_vin "Z" (DB.mk [] 0) = .error .notFound ∧
    MotorcycleService.update_motorcycle "Z" (.update { vin := some "Z" }) (DB.mk [] 0) =
      (.error .notFound, DB.mk [] 0) ∧
    MotorcycleService.delete_motorcycle_by_vin "Z" (DB.mk [] 0) =
      (.error .notFound, DB.mk [] 0) ∧
    MotorcycleService.delete_motorcycle_by_vin "Z" (DB.mk [] 2) =
      (.error .notFound, DB.mk [] 2) :=
  absent_vin_not_found_and_delete_idempotent "Z" { vin := some "Z" }
    (DB.mk [] 0) (DB.mk [sampleRow 1 "Z"] 2) (DB.mk [] 2) (.ok ())
    (by decide) (by decide) (by decide) (by decide) rfl

/-- C7: creating a fresh vin succeeds, the response id is drawn from the
storage sequence and every other response field equals the input, and an
immediate get by that vin returns the same response. -/
theorem create_then_get_roundtrip (c : MotorcycleCreate) (db : DB)
    (hfresh : ∀ r ∈ db.rows, r.vin ≠ some c.vin) :
    MotorcycleService.create_motorcycle c db =
      (.ok (MotorcycleResponse.mk db.next_id c.vin c.motorcycle_type
          c.odometer_value c.odometer_unit c.is_electric c.number_of_seats),
        DB.mk (db.rows ++ [{ c.toModel with id := some db.next_id }]) (db.next_id + 1)) ∧
    MotorcycleService.get_motorcycle_by_vin c.vin
        (DB.mk (db.rows ++ [{ c.toModel with id := some db.next_id }]) (db.next_id + 1)) =
      .ok (MotorcycleResponse.mk db.next_id c.vin c.motorcycle_type
          c.odometer_value c.odometer_unit c.is_electric c.number_of_seats) := by
  have hfind : db.rows.find? (fun x => x.vin == some c.vin) = none :=
    find?_vin_eq_none hfresh
  have hc : ¬ (db.rows.any (fun x => x.vin == c.toModel.vin) = true) := by
    intro h
    obtain ⟨x, hx, hpx⟩ := List.any_eq_true.mp h
    exact hfresh x hx (by simpa [MotorcycleCreate.toModel] using hpx)
  constructor
  · unfold MotorcycleService.create_motorcycle MotorcycleRepository.create_motorcycle
    rw [if_neg hc]
    simp [MotorcycleCreate.toModel, MotorcycleResponse.model_validate]
  · unfold MotorcycleService.get_motorcycle_by_vin MotorcycleRepository.get_motorcycle_by_vin MotorcycleRepository.get_one
    rw [find?_append_of_none hfind]
    simp [List.find?, MotorcycleCreate.toModel, MotorcycleResponse.model_validate]

/-- Witness for C7: create vin "A" into the empty store with the sequence
at 5, then get it back. -/
theorem create_then_get_roundtrip_witness :
    MotorcycleService.create_motorcycle
        (MotorcycleCreate.mk "A" "cruiser" 1 "km" false 2) (DB.mk [] 5) =
      (.ok (MotorcycleResponse.mk 5 "A" "cruiser" 1 "km" false 2),
        DB.mk [{ (MotorcycleCreate.mk "A" "cruiser" 1 "km" false 2).toModel with
            id := some 5 }] 6) ∧
    MotorcycleService.get_motorcycle_by_vin "A"
        (DB.mk [{ (MotorcycleCreate.mk "A" "cruiser" 1 "km" false 2).toModel with
            id := some 5 }] 6) =
      .ok (MotorcycleResponse.mk 5 "A" "cruiser" 1 "km" false 2) :=
  create_then_get_roundtrip (MotorcycleCreate.mk "A" "cruiser" 1 "km" false 2)
    (DB.mk [] 5) (by decide)

end MotorcycleApp
